import Mathlib

/-!
Verification of the client-side notification scripts of django-studyoverflow.

The development shallowly embeds three browser scripts:
* the notification WebSocket client (connection lifecycle, heartbeat,
  counter/icon updates, particle animation, htmx list refresh),
* the notifications-page htmx listener that synchronizes the empty-state
  placeholder and bulk-action buttons with the list contents,
* the comment expand/collapse synchronizer that restores per-comment
  presentation from a state map after server-driven DOM replacement.

DOM class lists are lists of strings with the classList add/remove/toggle
semantics; element presence is a Boolean or an `Option` field; timer and
network effects are explicit fields of the handlers' results.
-/

/-! ### DOM classList primitives -/

/-- `classList.contains`: membership test on a class list. -/
def hasClass : List String → String → Bool
  | [], _ => false
  | x :: xs, c => if x = c then true else hasClass xs c

/-- `classList.add`: appends the class unless it is already present. -/
def addClass (cs : List String) (c : String) : List String :=
  if hasClass cs c then cs else cs ++ [c]

/-- `classList.remove`: removes every occurrence of the class. -/
def removeClass (cs : List String) (c : String) : List String :=
  cs.filter (fun x => x != c)

/-- `classList.toggle(c, force)`: add when `force` is true, remove otherwise. -/
def toggleClassForce (cs : List String) (c : String) (force : Bool) : List String :=
  if force then addClass cs c else removeClass cs c

/-! ### JS numeric coercions used by the notification counter -/

/-- `parseInt` on a string: leading whitespace is skipped, then an
optional sign followed by the longest digit prefix is read; `none`
models `NaN` (no digits). -/
def jsParseInt (s : String) : Option Int :=
  let cs := s.toList.dropWhile (fun c => c = ' ' || c = '\t' || c = '\n' || c = '\r')
  let signed : Bool × List Char :=
    match cs with
    | '-' :: rest => (true, rest)
    | '+' :: rest => (false, rest)
    | _ => (false, cs)
  let ds := signed.2.takeWhile Char.isDigit
  if ds.isEmpty then none
  else
    let n : Nat := ds.foldl (fun a c => a * 10 + (c.toNat - 48)) 0
    some (if signed.1 then -(n : Int) else (n : Int))

/-- `parseInt(s) || 0`: `NaN` collapses to `0` (and `0 || 0` is `0`). -/
def parseIntOrZero (s : String) : Int := (jsParseInt s).getD 0

/-! ### Notification WebSocket client (notifications script, `socket.onmessage`)

The handler reads `data.unread_notifications_count ?? 0` and
`data.update_list` from the parsed JSON payload.  A payload is either
`malformed` (a `JSON.parse` failure, caught by the `try`/`catch`) or
`fields u ul` where `u = none` models an absent or `null`
`unread_notifications_count` (the `?? 0` default) and `ul` the truthiness
of `update_list`. -/

inductive WSPayload
  | malformed
  | fields (unreadCount : Option Int) (updateList : Bool)
deriving DecidableEq

/-- The observable page state touched by `socket.onmessage`:
the counter element's text and the class lists of the icon and counter. -/
structure NotifState where
  counterText : String
  iconClasses : List String
  counterClasses : List String
deriving DecidableEq

/-- Side effects of one `socket.onmessage` run: whether
`animateNotification()` fired, whether an `htmx.ajax` list refresh was
issued, whether a parse error was logged, and whether the handler closed
the socket (the handler contains no `close` call, so this is always
`false`). -/
structure MsgEffects where
  animated : Bool
  listRefreshRequested : Bool
  parseErrorLogged : Bool
  closedSocket : Bool
deriving DecidableEq

/-- `socket.onmessage`, lines 75–112 of the notifications script.
`notificationsListExists` is the presence of the `#notifications-list`
element captured at init.  On malformed JSON the `catch` logs and nothing
else happens.  Otherwise the counter text is set to the count, the
icon/counter classes are switched on the sign of the count,
`animateNotification()` runs only when the count is positive and exceeds
the previously displayed value (it pulses the icon by adding the `pulse`
class), and the htmx refresh is requested when `update_list` is truthy
and the list element exists. -/
def socketOnMessage (notificationsListExists : Bool) (st : NotifState)
    (p : WSPayload) : NotifState × MsgEffects :=
  match p with
  | .malformed =>
      (st, { animated := false, listRefreshRequested := false,
             parseErrorLogged := true, closedSocket := false })
  | .fields unreadCount updateList =>
      let count : Int := unreadCount.getD 0
      let previousCount : Int := parseIntOrZero st.counterText
      let counterText := toString count
      if count > 0 then
        let animated : Bool := decide (count > previousCount)
        let iconClasses0 := addClass (removeClass st.iconClasses "bi-bell") "bi-bell-fill"
        let iconClasses := if animated then addClass iconClasses0 "pulse" else iconClasses0
        let counterClasses := addClass (removeClass st.counterClasses "text-warning") "text-danger"
        ({ counterText := counterText, iconClasses := iconClasses,
           counterClasses := counterClasses },
         { animated := animated,
           listRefreshRequested := updateList && notificationsListExists,
           parseErrorLogged := false, closedSocket := false })
      else
        let iconClasses := addClass (removeClass st.iconClasses "bi-bell-fill") "bi-bell"
        let counterClasses := addClass (removeClass st.counterClasses "text-danger") "text-warning"
        ({ counterText := counterText, iconClasses := iconClasses,
           counterClasses := counterClasses },
         { animated := false,
           listRefreshRequested := updateList && notificationsListExists,
           parseErrorLogged := false, closedSocket := false })

/-! ### Connection lifecycle: `socket.onclose` and the heartbeat -/

/-- The reconnection delay passed to `setTimeout(connect, 5000)`. -/
def reconnectDelayMs : Nat := 5000

/-- `socket.onclose`, lines 117–124: on an unclean close it schedules
`connect` after `reconnectDelayMs`; on a clean close it schedules
nothing.  The result is the delay of the scheduled reconnection, if any. -/
def socketOnClose (wasClean : Bool) : Option Nat :=
  if !wasClean then some reconnectDelayMs else none

/-- `WebSocket.readyState` values. -/
inductive WSReadyState
  | connecting
  | open_
  | closing
  | closed
deriving DecidableEq

/-- Messages the client sends; `heartbeat` stands for
`JSON.stringify` of the object with `type` field `"heartbeat"`. -/
inductive OutboundMessage
  | heartbeat
deriving DecidableEq

/-- The interval passed to `setInterval` in `socket.onopen`: `60 * 1000`. -/
def heartbeatIntervalMs : Nat := 60 * 1000

/-- The body of the heartbeat `setInterval` callback: send the heartbeat
message only when `socket.readyState === WebSocket.OPEN`. -/
def heartbeatTick (readyState : WSReadyState) : Option OutboundMessage :=
  if readyState = WSReadyState.open_ then some OutboundMessage.heartbeat else none

/-- Firing time (ms after `onopen`) of the k-th interval callback. -/
def heartbeatTickTime (k : Nat) : Nat := (k + 1) * heartbeatIntervalMs

/-! ### Initialization guard (notifications script, `DOMContentLoaded`) -/

/-- Presence of the three required elements: `#notifications-button`,
`#i-notifications`, `#notifications-count`. -/
structure NotifElements where
  buttonElPresent : Bool
  iconElPresent : Bool
  countElPresent : Bool
deriving DecidableEq

/-- State of the init guard: the `window.notificationsWSInitialized` flag
and how many `new WebSocket(...)` constructions have run. -/
structure InitState where
  notificationsWSInitialized : Bool
  socketsCreated : Nat
deriving DecidableEq

/-- The `DOMContentLoaded` handler, lines 13–26 plus the final
`connect()`: bail out when any element is missing, bail out when the
guard flag is already set, otherwise set the flag and create the socket. -/
def domContentLoadedInit (els : NotifElements) (st : InitState) : InitState :=
  if !(els.buttonElPresent && els.iconElPresent && els.countElPresent) then st
  else if st.notificationsWSInitialized then st
  else { notificationsWSInitialized := true, socketsCreated := st.socketsCreated + 1 }

/-! ### Notifications page: empty-state synchronization (second
`htmx:afterRequest` listener of the notifications management script) -/

/-- Observable state of the notifications page for the empty-state
listener: presence of `#notifications-list`, the number of
`notification-wrapper-` elements inside it, the placeholder's
`style.display`, and the two buttons' `disabled` flags (`none` models an
absent element, which the listener's `if` guards skip). -/
structure NotifPageState where
  containerPresent : Bool
  notificationWrapperCount : Nat
  noNotificationsDisplay : Option String
  markAllBtnDisabled : Option Bool
  deleteAllBtnDisabled : Option Bool
deriving DecidableEq

/-- The second `htmx:afterRequest` listener, lines 59–84: bail out when
the container is missing; when the wrapper count is zero, show the
placeholder and disable both buttons; otherwise hide the placeholder and
enable them.  Each update is guarded by the element's presence. -/
def afterRequestEmptyStateSync (st : NotifPageState) : NotifPageState :=
  if !st.containerPresent then st
  else if st.notificationWrapperCount = 0 then
    { st with
      noNotificationsDisplay := st.noNotificationsDisplay.map (fun _ => "block"),
      markAllBtnDisabled := st.markAllBtnDisabled.map (fun _ => true),
      deleteAllBtnDisabled := st.deleteAllBtnDisabled.map (fun _ => true) }
  else
    { st with
      noNotificationsDisplay := st.noNotificationsDisplay.map (fun _ => "none"),
      markAllBtnDisabled := st.markAllBtnDisabled.map (fun _ => false),
      deleteAllBtnDisabled := st.deleteAllBtnDisabled.map (fun _ => false) }

/-! ### Comment expand/collapse synchronizer (`comments_detail.js`)

`commentState` is the `Map` from comment id to expanded flag, embedded as
an association list (`Map.has`/`get`/`set` become `List.lookup` and an
append).  A wrapper is an element with `data-comment-expand`; its
`dataset.commentId` and resolved `dataset.target` content may be missing
(`none` also models the falsy empty id, see `syncOneComment`). -/

/-- `MAX_HEIGHT` from `comments_detail.js`. -/
def MAX_HEIGHT : Nat := 200

/-- The comment content element: its `scrollHeight`, class list and the
inline `max-height` and `transition` styles. -/
structure CommentContent where
  scrollHeight : Nat
  classes : List String
  maxHeight : Option String
  transition : Option String
deriving DecidableEq

/-- A `[data-comment-expand]` wrapper: its `dataset.commentId`, resolved
content element, optional arrow/label children and `style.display`. -/
structure CommentWrapper where
  commentId : Option String
  content : Option CommentContent
  arrowTransform : Option String
  expandLabel : Option String
  display : Option String
deriving DecidableEq

/-- `updateTruncation`, lines 18–22: toggle the `truncated` class on
whether the content overflows `MAX_HEIGHT + 5` and is not expanded. -/
def updateTruncation (content : CommentContent) : CommentContent :=
  let isTruncated :=
    decide (content.scrollHeight > MAX_HEIGHT + 5)
      && !(hasClass content.classes "is-expanded")
  { content with classes := toggleClassForce content.classes "truncated" isTruncated }

/-- The body of the `syncComments` loop, lines 26–58, for one wrapper:
skip wrappers without a (truthy) comment id or content; initialize the
state map entry to collapsed when absent; then restore the presentation
from the stored flag (`is-expanded` class and scroll-height `max-height`
when expanded, no `is-expanded` and `MAX_HEIGHT` otherwise), set the
wrapper's visibility from the overflow test, and re-run
`updateTruncation`.  Returns the updated map and wrapper. -/
def syncOneComment (commentState : List (String × Bool)) (w : CommentWrapper) :
    List (String × Bool) × CommentWrapper :=
  match w.commentId, w.content with
  | some commentId, some content =>
      if commentId = "" then (commentState, w)
      else
        let commentState1 :=
          if (commentState.lookup commentId).isSome then commentState
          else commentState ++ [(commentId, false)]
        let expanded := (commentState1.lookup commentId).getD false
        let content1 := { content with transition := some "max-height 0.25s ease" }
        let content2 :=
          if expanded then
            { content1 with
              classes := addClass content1.classes "is-expanded",
              maxHeight := some (toString content1.scrollHeight ++ "px") }
          else
            { content1 with
              classes := removeClass content1.classes "is-expanded",
              maxHeight := some (toString MAX_HEIGHT ++ "px") }
        let arrowTransform :=
          w.arrowTransform.map (fun _ =>
            if expanded then "rotate(180deg)" else "rotate(0deg)")
        let expandLabel :=
          w.expandLabel.map (fun _ =>
            if expanded then "Свернуть " else "Показать полностью ")
        let display :=
          if content2.scrollHeight > MAX_HEIGHT + 5 then "block" else "none"
        (commentState1,
         { w with
           content := some (updateTruncation content2),
           arrowTransform := arrowTransform,
           expandLabel := expandLabel,
           display := some display })
  | _, _ => (commentState, w)

/-- `syncComments`, lines 25–59: fold `syncOneComment` over the wrappers
under the settled root (the `htmx:afterSettle` listener calls it on every
server-driven DOM replacement), threading the state map. -/
def syncComments : List (String × Bool) → List CommentWrapper →
    List (String × Bool) × List CommentWrapper
  | m, [] => (m, [])
  | m, w :: ws =>
      let res := syncOneComment m w
      let rest := syncComments res.1 ws
      (rest.1, res.2 :: rest.2)

/-! ### Helper lemmas about the classList primitives -/

theorem hasClass_append (l1 l2 : List String) (c : String) :
    hasClass (l1 ++ l2) c = (hasClass l1 c || hasClass l2 c) := by
  induction l1 with
  | nil => simp [hasClass]
  | cons x xs ih =>
    by_cases h : x = c <;> simp [hasClass, h, ih]

theorem hasClass_addClass_self (cs : List String) (c : String) :
    hasClass (addClass cs c) c = true := by
  unfold addClass
  by_cases h : hasClass cs c <;> simp [h, hasClass_append, hasClass]

theorem hasClass_addClass_ne (cs : List String) (c d : String) (h : d ≠ c) :
    hasClass (addClass cs c) d = hasClass cs d := by
  unfold addClass
  by_cases hc : hasClass cs c <;> simp [hc, hasClass_append, hasClass, Ne.symm h]

theorem hasClass_removeClass_self (cs : List String) (c : String) :
    hasClass (removeClass cs c) c = false := by
  induction cs with
  | nil => rfl
  | cons x xs ih =>
    unfold removeClass at ih ⊢
    by_cases h : x = c
    · simp [List.filter_cons, h, ih]
    · simp [List.filter_cons, bne_iff_ne, h, hasClass, ih]

theorem hasClass_removeClass_ne (cs : List String) (c d : String) (h : d ≠ c) :
    hasClass (removeClass cs c) d = hasClass cs d := by
  induction cs with
  | nil => rfl
  | cons x xs ih =>
    unfold removeClass at ih ⊢
    by_cases hx : x = c
    · subst hx
      simp [List.filter_cons, hasClass, Ne.symm h, ih]
    · by_cases hd : x = d <;>
        simp [List.filter_cons, bne_iff_ne, hx, hd, h, hasClass, ih]

/-! ### Claim theorems: connection lifecycle -/

/-- C1: `socket.onclose` schedules a reconnection exactly when the close
was unclean; a clean close schedules nothing; the scheduled delay is the
same fixed `reconnectDelayMs` on every attempt, and any number of
consecutive unclean closes each schedule a reconnection (no backoff
growth, no maximum-retry cap). -/
theorem socketOnClose_reconnect_iff_unclean :
    (∀ wasClean : Bool, (socketOnClose wasClean).isSome = !wasClean)
    ∧ socketOnClose false = some reconnectDelayMs
    ∧ socketOnClose true = none
    ∧ (∀ n : Nat,
        (List.replicate n false).map socketOnClose =
          List.replicate n (some reconnectDelayMs)) := by
  refine ⟨fun wasClean => by cases wasClean <;> rfl, rfl, rfl, fun n => ?_⟩
  induction n with
  | zero => rfl
  | succ k ih => simp [List.replicate_succ, ih]; rfl

/-- C2: on a payload that is not valid JSON, `socket.onmessage` logs the
parse error and does nothing else: the counter text, icon classes and
counter classes are unchanged, no animation fires, no list refresh is
requested, and the socket is not closed. -/
theorem socketOnMessage_malformed_noop :
    ∀ (notificationsListExists : Bool) (st : NotifState),
      socketOnMessage notificationsListExists st WSPayload.malformed =
        (st, { animated := false, listRefreshRequested := false,
               parseErrorLogged := true, closedSocket := false }) :=
  fun _ _ => rfl

/-- C5: the heartbeat interval callback sends the heartbeat message
exactly when the socket's `readyState` is `OPEN` — on a connecting,
closing or closed socket the guard suppresses the send — and the
callback fires on a fixed period: consecutive firing times differ by
`heartbeatIntervalMs`. -/
theorem heartbeatTick_sends_iff_open :
    (∀ readyState : WSReadyState,
      (heartbeatTick readyState).isSome = decide (readyState = WSReadyState.open_))
    ∧ heartbeatTick WSReadyState.open_ = some OutboundMessage.heartbeat
    ∧ (∀ k : Nat,
        heartbeatTickTime (k + 1) = heartbeatTickTime k + heartbeatIntervalMs) := by
  refine ⟨fun readyState => by cases readyState <;> rfl, rfl, fun k => ?_⟩
  simp [heartbeatTickTime, Nat.succ_mul]

/-- C6: on a well-formed payload, `socket.onmessage` requests the htmx
fetch-and-replace of the notification list exactly when the payload's
`update_list` flag is truthy and the `#notifications-list` element
exists. -/
theorem socketOnMessage_list_refresh_iff :
    ∀ (notificationsListExists : Bool) (st : NotifState)
      (unreadCount : Option Int) (updateList : Bool),
      (socketOnMessage notificationsListExists st
          (WSPayload.fields unreadCount updateList)).2.listRefreshRequested =
        (updateList && notificationsListExists) := by
  intro notificationsListExists st unreadCount updateList
  unfold socketOnMessage
  by_cases h : unreadCount.getD 0 > 0 <;> simp [h]

/-! ### Claim theorems: counter, icon and animation updates -/

/-- C3: the particle animation fires only when the received count is
strictly greater than the previously displayed counter value; when the
count is equal to or less than the previous value, no animation fires. -/
theorem socketOnMessage_animation_only_on_increase :
    ∀ (notificationsListExists : Bool) (st : NotifState)
      (unreadCount : Option Int) (updateList : Bool),
      ((socketOnMessage notificationsListExists st
          (WSPayload.fields unreadCount updateList)).2.animated = true →
        parseIntOrZero st.counterText < unreadCount.getD 0)
      ∧ (unreadCount.getD 0 ≤ parseIntOrZero st.counterText →
        (socketOnMessage notificationsListExists st
          (WSPayload.fields unreadCount updateList)).2.animated = false) := by
  intro notificationsListExists st unreadCount updateList
  unfold socketOnMessage
  by_cases h : unreadCount.getD 0 > 0
  · simp [h]
  · simp [h]

/-- C3 witness: with previous display "2" and received count 5 the
animation fires and the theorem yields 2 < 5 at that input. -/
theorem socketOnMessage_animation_only_on_increase_witness :
    parseIntOrZero "2" < (some (5 : Int)).getD 0 :=
  (socketOnMessage_animation_only_on_increase true
      { counterText := "2", iconClasses := ["bi-bell"],
        counterClasses := ["text-warning"] }
      (some 5) false).1 (by decide)

/-- C4: after a well-formed message the counter text equals the received
count, and the icon/color state reflects positivity: the icon carries
`bi-bell-fill` and the counter `text-danger` exactly when the count is
strictly positive, and `bi-bell` / `text-warning` exactly otherwise. -/
theorem socketOnMessage_counter_icon_state :
    ∀ (notificationsListExists : Bool) (st : NotifState)
      (unreadCount : Option Int) (updateList : Bool),
      ((socketOnMessage notificationsListExists st
          (WSPayload.fields unreadCount updateList)).1.counterText =
        toString (unreadCount.getD 0))
      ∧ (hasClass (socketOnMessage notificationsListExists st
          (WSPayload.fields unreadCount updateList)).1.iconClasses "bi-bell-fill" =
        decide (unreadCount.getD 0 > 0))
      ∧ (hasClass (socketOnMessage notificationsListExists st
          (WSPayload.fields unreadCount updateList)).1.iconClasses "bi-bell" =
        !decide (unreadCount.getD 0 > 0))
      ∧ (hasClass (socketOnMessage notificationsListExists st
          (WSPayload.fields unreadCount updateList)).1.counterClasses "text-danger" =
        decide (unreadCount.getD 0 > 0))
      ∧ (hasClass (socketOnMessage notificationsListExists st
          (WSPayload.fields unreadCount updateList)).1.counterClasses "text-warning" =
        !decide (unreadCount.getD 0 > 0)) := by
  intro notificationsListExists st unreadCount updateList
  unfold socketOnMessage
  by_cases h : unreadCount.getD 0 > 0
  · by_cases ha : parseIntOrZero st.counterText < unreadCount.getD 0 <;>
      simp [h, ha, hasClass_addClass_self,
        hasClass_addClass_ne _ _ _ (by decide : ("bi-bell" : String) ≠ "pulse"),
        hasClass_addClass_ne _ _ _ (by decide : ("bi-bell-fill" : String) ≠ "pulse"),
        hasClass_addClass_ne _ _ _ (by decide : ("bi-bell" : String) ≠ "bi-bell-fill"),
        hasClass_addClass_ne _ _ _ (by decide : ("text-warning" : String) ≠ "text-danger"),
        hasClass_removeClass_self]
  · simp [h, hasClass_addClass_self,
      hasClass_addClass_ne _ _ _ (by decide : ("bi-bell-fill" : String) ≠ "bi-bell"),
      hasClass_addClass_ne _ _ _ (by decide : ("text-danger" : String) ≠ "text-warning"),
      hasClass_removeClass_self]

/-- C8: on a payload whose `unread_notifications_count` is absent or
null, the handler treats the count as 0: the counter text becomes "0",
the icon reverts to `bi-bell` / `text-warning` (and loses
`bi-bell-fill` / `text-danger`), and no animation fires. -/
theorem socketOnMessage_missing_count_defaults :
    ∀ (notificationsListExists : Bool) (st : NotifState) (updateList : Bool),
      ((socketOnMessage notificationsListExists st
          (WSPayload.fields none updateList)).1.counterText = "0")
      ∧ (hasClass (socketOnMessage notificationsListExists st
          (WSPayload.fields none updateList)).1.iconClasses "bi-bell" = true)
      ∧ (hasClass (socketOnMessage notificationsListExists st
          (WSPayload.fields none updateList)).1.iconClasses "bi-bell-fill" = false)
      ∧ (hasClass (socketOnMessage notificationsListExists st
          (WSPayload.fields none updateList)).1.counterClasses "text-warning" = true)
      ∧ (hasClass (socketOnMessage notificationsListExists st
          (WSPayload.fields none updateList)).1.counterClasses "text-danger" = false)
      ∧ ((socketOnMessage notificationsListExists st
          (WSPayload.fields none updateList)).2.animated = false) := by
  intro notificationsListExists st updateList
  unfold socketOnMessage
  simp [hasClass_addClass_self,
    hasClass_addClass_ne _ _ _ (by decide : ("bi-bell-fill" : String) ≠ "bi-bell"),
    hasClass_addClass_ne _ _ _ (by decide : ("text-danger" : String) ≠ "text-warning"),
    hasClass_removeClass_self]
  decide

/-! ### Claim theorems: initialization guard -/

theorem domContentLoadedInit_cases (els : NotifElements) (st : InitState) :
    domContentLoadedInit els st = st ∨
      (st.notificationsWSInitialized = false ∧
        domContentLoadedInit els st =
          { notificationsWSInitialized := true,
            socketsCreated := st.socketsCreated + 1 }) := by
  unfold domContentLoadedInit
  by_cases h : (els.buttonElPresent && els.iconElPresent && els.countElPresent) = true
  · by_cases hf : st.notificationsWSInitialized = true <;> simp [h, hf]
  · simp [h]

theorem domContentLoadedInit_flagged (els : NotifElements) (st : InitState)
    (h : st.notificationsWSInitialized = true) :
    domContentLoadedInit els st = st := by
  unfold domContentLoadedInit
  by_cases he : (els.buttonElPresent && els.iconElPresent && els.countElPresent) = true <;>
    simp [he, h]

theorem iterate_domContentLoadedInit_inv (els : NotifElements) (st : InitState)
    (n : Nat) :
    (domContentLoadedInit els)^[n] st = st ∨
      (((domContentLoadedInit els)^[n] st).notificationsWSInitialized = true ∧
        ((domContentLoadedInit els)^[n] st).socketsCreated ≤ st.socketsCreated + 1) := by
  induction n with
  | zero => left; rfl
  | succ k ih =>
    rw [Function.iterate_succ_apply']
    rcases ih with h | ⟨hflag, hcount⟩
    · rw [h]
      rcases domContentLoadedInit_cases els st with h2 | ⟨_, h2⟩
      · left; exact h2
      · right; rw [h2]; exact ⟨rfl, le_refl _⟩
    · right
      rw [domContentLoadedInit_flagged els _ hflag]
      exact ⟨hflag, hcount⟩

/-- C9: the `DOMContentLoaded` handler is a no-op the second time it
runs (the `window.notificationsWSInitialized` guard), when any of the
button, icon or counter elements is missing any number of runs create no
socket, and over any number of runs at most one socket is ever created. -/
theorem domContentLoadedInit_guard :
    (∀ (els : NotifElements) (st : InitState),
      domContentLoadedInit els (domContentLoadedInit els st) =
        domContentLoadedInit els st)
    ∧ (∀ (els : NotifElements) (st : InitState) (n : Nat),
        (els.buttonElPresent && els.iconElPresent && els.countElPresent) = false →
        (domContentLoadedInit els)^[n] st = st)
    ∧ (∀ (els : NotifElements) (st : InitState) (n : Nat),
        ((domContentLoadedInit els)^[n] st).socketsCreated ≤
          st.socketsCreated + 1) := by
  refine ⟨fun els st => ?_, fun els st n h => ?_, fun els st n => ?_⟩
  · rcases domContentLoadedInit_cases els st with h | ⟨_, h⟩
    · rw [h, h]
    · rw [h, domContentLoadedInit_flagged els _ rfl]
  · induction n with
    | zero => rfl
    | succ k ih =>
      rw [Function.iterate_succ_apply', ih]
      unfold domContentLoadedInit
      simp [h]
  · rcases iterate_domContentLoadedInit_inv els st n with h | ⟨_, hcount⟩
    · rw [h]; exact Nat.le_succ _
    · exact hcount

/-- C9 witness: with the icon element missing, two runs of the handler
leave the fresh state untouched and create no socket. -/
theorem domContentLoadedInit_guard_witness :
    (domContentLoadedInit
        { buttonElPresent := true, iconElPresent := false, countElPresent := true })^[2]
      { notificationsWSInitialized := false, socketsCreated := 0 } =
      { notificationsWSInitialized := false, socketsCreated := 0 } :=
  domContentLoadedInit_guard.2.1
    { buttonElPresent := true, iconElPresent := false, countElPresent := true }
    { notificationsWSInitialized := false, socketsCreated := 0 } 2 rfl

/-! ### Claim theorems: notifications-page empty-state synchronization -/

/-- C10: after the empty-state listener runs (with the list container
and the placeholder/button elements present), the "no notifications"
placeholder is shown exactly when the container holds zero
notification wrappers, hidden exactly when it holds at least one, and
the mark-all-read and delete-all buttons are disabled exactly when the
count is zero. -/
theorem afterRequestEmptyStateSync_matches_count :
    ∀ st : NotifPageState,
      st.containerPresent = true →
      st.noNotificationsDisplay.isSome = true →
      st.markAllBtnDisabled.isSome = true →
      st.deleteAllBtnDisabled.isSome = true →
      (((afterRequestEmptyStateSync st).noNotificationsDisplay = some "block") ↔
        st.notificationWrapperCount = 0)
      ∧ (((afterRequestEmptyStateSync st).noNotificationsDisplay = some "none") ↔
        0 < st.notificationWrapperCount)
      ∧ (((afterRequestEmptyStateSync st).markAllBtnDisabled = some true) ↔
        st.notificationWrapperCount = 0)
      ∧ (((afterRequestEmptyStateSync st).deleteAllBtnDisabled = some true) ↔
        st.notificationWrapperCount = 0)
      ∧ (((afterRequestEmptyStateSync st).markAllBtnDisabled = some false) ↔
        0 < st.notificationWrapperCount)
      ∧ (((afterRequestEmptyStateSync st).deleteAllBtnDisabled = some false) ↔
        0 < st.notificationWrapperCount) := by
  intro st hc hno hma hda
  obtain ⟨d, hd⟩ := Option.isSome_iff_exists.mp hno
  obtain ⟨b1, hb1⟩ := Option.isSome_iff_exists.mp hma
  obtain ⟨b2, hb2⟩ := Option.isSome_iff_exists.mp hda
  unfold afterRequestEmptyStateSync
  by_cases h0 : st.notificationWrapperCount = 0
  · simp [hc, h0, hd, hb1, hb2,
      (by decide : ("block" : String) ≠ "none")]
  · have hp : 0 < st.notificationWrapperCount := Nat.pos_of_ne_zero h0
    simp [hc, h0, hd, hb1, hb2, hp,
      (by decide : ("none" : String) ≠ "block")]

theorem lookup_append_some (l1 l2 : List (String × Bool)) (k : String) (v : Bool)
    (h : l1.lookup k = some v) : (l1 ++ l2).lookup k = some v := by
  induction l1 with
  | nil => simp [List.lookup] at h
  | cons p l ih =>
    obtain ⟨a, b⟩ := p
    by_cases hk : k = a
    · subst hk; simp [List.lookup] at h ⊢; exact h
    · have hb : (k == a) = false := beq_eq_false_iff_ne.mpr hk
      simp only [List.lookup, hb] at h ⊢
      exact ih h

theorem lookup_append_none (l1 l2 : List (String × Bool)) (k : String)
    (h : l1.lookup k = none) : (l1 ++ l2).lookup k = l2.lookup k := by
  induction l1 with
  | nil => rfl
  | cons p l ih =>
    obtain ⟨a, b⟩ := p
    by_cases hk : k = a
    · subst hk; simp [List.lookup] at h
    · have hb : (k == a) = false := beq_eq_false_iff_ne.mpr hk
      simp only [List.lookup, hb] at h ⊢
      exact ih h

theorem lookup_singleton_self (k : String) (v : Bool) :
    ([(k, v)] : List (String × Bool)).lookup k = some v := by
  simp [List.lookup]

theorem syncOneComment_lookup_preserve (m : List (String × Bool)) (w : CommentWrapper)
    (k : String) (v : Bool) (h : m.lookup k = some v) :
    ((syncOneComment m w).1).lookup k = some v := by
  cases hid : w.commentId with
  | none => simp [syncOneComment, hid, h]
  | some cid =>
    cases hct : w.content with
    | none => simp [syncOneComment, hid, hct, h]
    | some c =>
      by_cases hcid : cid = ""
      · simp [syncOneComment, hid, hct, hcid, h]
      · by_cases hm : (List.lookup cid m).isSome = true
        · simp [syncOneComment, hid, hct, hcid, hm, h]
        · simp [syncOneComment, hid, hct, hcid, hm]
          exact lookup_append_some _ _ _ _ h

theorem updateTruncation_maxHeight (c : CommentContent) :
    (updateTruncation c).maxHeight = c.maxHeight := rfl

theorem updateTruncation_scrollHeight (c : CommentContent) :
    (updateTruncation c).scrollHeight = c.scrollHeight := rfl

theorem updateTruncation_isExpanded (c : CommentContent) :
    hasClass (updateTruncation c).classes "is-expanded" =
      hasClass c.classes "is-expanded" := by
  unfold updateTruncation toggleClassForce
  by_cases ht :
      (decide (c.scrollHeight > MAX_HEIGHT + 5) && !hasClass c.classes "is-expanded") = true
  · simp only [ht, if_true]
    exact hasClass_addClass_ne _ _ _ (by decide)
  · simp only [ht, if_false, Bool.false_eq_true]
    exact hasClass_removeClass_ne _ _ _ (by decide)

theorem syncOneComment_lookup_own (m : List (String × Bool)) (w : CommentWrapper)
    (cid : String) (c : CommentContent)
    (hid : w.commentId = some cid) (hcid : cid ≠ "") (hct : w.content = some c) :
    ((syncOneComment m w).1).lookup cid = some ((m.lookup cid).getD false) := by
  by_cases hm : (List.lookup cid m).isSome = true
  · obtain ⟨v, hv⟩ := Option.isSome_iff_exists.mp hm
    simp [syncOneComment, hid, hct, hcid, hm, hv]
  · have hnone : m.lookup cid = none :=
      Option.not_isSome_iff_eq_none.mp (by simpa using hm)
    simp [syncOneComment, hid, hct, hcid, hm, hnone]
    rw [lookup_append_none _ _ _ hnone]
    exact lookup_singleton_self _ _

theorem syncOneComment_lookup_new (m : List (String × Bool)) (w : CommentWrapper)
    (k : String) (b : Bool) (hnone : m.lookup k = none)
    (h : ((syncOneComment m w).1).lookup k = some b) : b = false := by
  cases hid : w.commentId with
  | none => simp [syncOneComment, hid, hnone] at h
  | some cid =>
    cases hct : w.content with
    | none => simp [syncOneComment, hid, hct, hnone] at h
    | some c =>
      by_cases hcid : cid = ""
      · simp [syncOneComment, hid, hct, hcid, hnone] at h
      · by_cases hm : (List.lookup cid m).isSome = true
        · simp [syncOneComment, hid, hct, hcid, hm, hnone] at h
        · simp only [syncOneComment, hid, hct, hcid, hm] at h
          simp only [if_false, Bool.false_eq_true, if_neg (by trivial : ¬False)] at h
          rw [lookup_append_none _ _ _ hnone] at h
          by_cases hk : k = cid
          · subst hk
            rw [lookup_singleton_self] at h
            exact (Option.some_injective _ h).symm
          · have hb : (k == cid) = false := beq_eq_false_iff_ne.mpr hk
            simp [List.lookup, hb] at h

theorem syncOneComment_presentation (m : List (String × Bool)) (w : CommentWrapper)
    (cid : String) (c : CommentContent)
    (hid : w.commentId = some cid) (hcid : cid ≠ "") (hct : w.content = some c) :
    ((syncOneComment m w).2).commentId = some cid
    ∧ ∃ c2 : CommentContent,
      ((syncOneComment m w).2).content = some c2
      ∧ (((m.lookup cid).getD false) = true →
          hasClass c2.classes "is-expanded" = true
          ∧ c2.maxHeight = some (toString c2.scrollHeight ++ "px"))
      ∧ (((m.lookup cid).getD false) = false →
          hasClass c2.classes "is-expanded" = false
          ∧ c2.maxHeight = some (toString MAX_HEIGHT ++ "px")) := by
  by_cases hm : (List.lookup cid m).isSome = true
  · obtain ⟨v, hv⟩ := Option.isSome_iff_exists.mp hm
    cases v with
    | false =>
      simp [syncOneComment, hid, hct, hcid, hm, hv, updateTruncation_isExpanded,
        updateTruncation_maxHeight, updateTruncation_scrollHeight,
        hasClass_removeClass_self]
    | true =>
      simp [syncOneComment, hid, hct, hcid, hm, hv, updateTruncation_isExpanded,
        updateTruncation_maxHeight, updateTruncation_scrollHeight,
        hasClass_addClass_self]
  · have hnone : m.lookup cid = none :=
      Option.not_isSome_iff_eq_none.mp (by simpa using hm)
    simp [syncOneComment, hid, hct, hcid, hm, hnone, lookup_append_none _ _ _ hnone,
      lookup_singleton_self, updateTruncation_isExpanded, updateTruncation_maxHeight,
      updateTruncation_scrollHeight, hasClass_removeClass_self]

theorem syncOneComment_skip_id_none (m : List (String × Bool)) (w : CommentWrapper)
    (h : w.commentId = none) : syncOneComment m w = (m, w) := by
  cases hct : w.content <;> simp [syncOneComment, h, hct]

theorem syncOneComment_skip_content_none (m : List (String × Bool)) (w : CommentWrapper)
    (h : w.content = none) : syncOneComment m w = (m, w) := by
  cases hid : w.commentId <;> simp [syncOneComment, hid, h]

theorem syncOneComment_skip_empty_id (m : List (String × Bool)) (w : CommentWrapper)
    (hid : w.commentId = some "") : syncOneComment m w = (m, w) := by
  cases hct : w.content <;> simp [syncOneComment, hid, hct]

theorem syncComments_lookup_preserve (ws : List CommentWrapper) :
    ∀ (m : List (String × Bool)) (k : String) (v : Bool),
      m.lookup k = some v → ((syncComments m ws).1).lookup k = some v := by
  induction ws with
  | nil => intro m k v h; exact h
  | cons w ws ih =>
    intro m k v h
    simp only [syncComments]
    exact ih _ _ _ (syncOneComment_lookup_preserve m w k v h)

theorem syncComments_lookup_new (ws : List CommentWrapper) :
    ∀ (m : List (String × Bool)) (k : String) (b : Bool),
      m.lookup k = none → ((syncComments m ws).1).lookup k = some b → b = false := by
  induction ws with
  | nil =>
    intro m k b hn h
    rw [show (syncComments m []).1 = m from rfl] at h
    rw [hn] at h
    exact absurd h (by simp)
  | cons w ws ih =>
    intro m k b hn h
    simp only [syncComments] at h
    cases hm1 : ((syncOneComment m w).1).lookup k with
    | none => exact ih _ _ _ hm1 h
    | some v =>
      have hv : v = false := syncOneComment_lookup_new m w k v hn hm1
      have hfin := syncComments_lookup_preserve ws _ k v hm1
      rw [hfin] at h
      cases h
      exact hv

theorem syncComments_presentation_aux (ws : List CommentWrapper) :
    ∀ (m : List (String × Bool)),
      ∀ w2 ∈ (syncComments m ws).2, ∀ (cid : String) (c2 : CommentContent),
        w2.commentId = some cid → cid ≠ "" → w2.content = some c2 →
        ∃ b : Bool, ((syncComments m ws).1).lookup cid = some b
          ∧ (b = true → hasClass c2.classes "is-expanded" = true
              ∧ c2.maxHeight = some (toString c2.scrollHeight ++ "px"))
          ∧ (b = false → hasClass c2.classes "is-expanded" = false
              ∧ c2.maxHeight = some (toString MAX_HEIGHT ++ "px")) := by
  induction ws with
  | nil =>
    intro m w2 hw2
    simp [syncComments] at hw2
  | cons w ws ih =>
    intro m w2 hw2 cid c2 hid2 hcid hct2
    simp only [syncComments, List.mem_cons] at hw2
    rcases hw2 with heq | hmem
    · subst heq
      cases hidw : w.commentId with
      | none =>
        rw [syncOneComment_skip_id_none m w hidw] at hid2
        rw [hidw] at hid2
        exact absurd hid2 (by simp)
      | some cid0 =>
        cases hctw : w.content with
        | none =>
          rw [syncOneComment_skip_content_none m w hctw] at hct2
          rw [hctw] at hct2
          exact absurd hct2 (by simp)
        | some c =>
          by_cases hcid0 : cid0 = ""
          · subst hcid0
            rw [syncOneComment_skip_empty_id m w hidw] at hid2
            rw [hidw] at hid2
            have : cid = "" := by
              have := Option.some.inj hid2
              exact this.symm
            exact absurd this hcid
          · obtain ⟨hidout, c2', hctout, htrue, hfalse⟩ :=
              syncOneComment_presentation m w cid0 c hidw hcid0 hctw
            rw [hidout] at hid2
            have hcideq : cid0 = cid := Option.some.inj hid2
            subst hcideq
            rw [hctout] at hct2
            have hc2eq : c2' = c2 := Option.some.inj hct2
            subst hc2eq
            have hown := syncOneComment_lookup_own m w cid0 c hidw hcid0 hctw
            have hfin := syncComments_lookup_preserve ws _ cid0 _ hown
            simp only [syncComments]
            exact ⟨(m.lookup cid0).getD false, hfin, htrue, hfalse⟩
    · have := ih (syncOneComment m w).1 w2 hmem cid c2 hid2 hcid hct2
      simpa only [syncComments] using this

/-- C7: after every server-driven DOM replacement the synchronizer
restores each comment's presentation from the state map keyed by comment
id: stored entries are preserved, every entry the sync adds is the
collapsed state `false` (identifiers not yet in the map are initialized
to collapsed), and every synced wrapper with a known comment id and
content carries a stored flag under which the content has the
`is-expanded` class with full-scroll-height `max-height` when the flag
is true, and lacks `is-expanded` with the fixed `MAX_HEIGHT` when it is
false. -/
theorem syncComments_restores_state :
    ∀ (ws : List CommentWrapper) (m : List (String × Bool)),
      (∀ (k : String) (v : Bool),
        m.lookup k = some v → ((syncComments m ws).1).lookup k = some v)
      ∧ (∀ (k : String) (b : Bool),
        m.lookup k = none → ((syncComments m ws).1).lookup k = some b → b = false)
      ∧ (∀ w2 ∈ (syncComments m ws).2, ∀ (cid : String) (c2 : CommentContent),
          w2.commentId = some cid → cid ≠ "" → w2.content = some c2 →
          ∃ b : Bool, ((syncComments m ws).1).lookup cid = some b
            ∧ (b = true → hasClass c2.classes "is-expanded" = true
                ∧ c2.maxHeight = some (toString c2.scrollHeight ++ "px"))
            ∧ (b = false → hasClass c2.classes "is-expanded" = false
                ∧ c2.maxHeight = some (toString MAX_HEIGHT ++ "px"))) :=
  fun ws m =>
    ⟨fun k v h => syncComments_lookup_preserve ws m k v h,
     fun k b hn h => syncComments_lookup_new ws m k b hn h,
     fun w2 hw2 cid c2 hid2 hcid hct2 =>
       syncComments_presentation_aux ws m w2 hw2 cid c2 hid2 hcid hct2⟩

/-- C7 witness: with stored state mapping comment "7" to expanded and a
single wrapper for that comment, the sync yields the expanded
presentation for the flag found in the final map. -/
theorem syncComments_restores_state_witness :
    ∃ b : Bool,
      ((syncComments [("7", true)]
          [{ commentId := some "7",
             content := some { scrollHeight := 250, classes := [],
                               maxHeight := none, transition := none },
             arrowTransform := none, expandLabel := none,
             display := none }]).1).lookup "7" = some b
      ∧ (b = true →
          hasClass ({ scrollHeight := 250, classes := ["is-expanded"],
                      maxHeight := some "250px",
                      transition := some "max-height 0.25s ease" }
              : CommentContent).classes "is-expanded" = true
          ∧ ({ scrollHeight := 250, classes := ["is-expanded"],
               maxHeight := some "250px",
               transition := some "max-height 0.25s ease" }
              : CommentContent).maxHeight =
            some (toString ({ scrollHeight := 250, classes := ["is-expanded"],
                              maxHeight := some "250px",
                              transition := some "max-height 0.25s ease" }
                : CommentContent).scrollHeight ++ "px"))
      ∧ (b = false →
          hasClass ({ scrollHeight := 250, classes := ["is-expanded"],
                      maxHeight := some "250px",
                      transition := some "max-height 0.25s ease" }
              : CommentContent).classes "is-expanded" = false
          ∧ ({ scrollHeight := 250, classes := ["is-expanded"],
               maxHeight := some "250px",
               transition := some "max-height 0.25s ease" }
              : CommentContent).maxHeight =
            some (toString MAX_HEIGHT ++ "px")) :=
  (syncComments_restores_state
      [{ commentId := some "7",
         content := some { scrollHeight := 250, classes := [],
                           maxHeight := none, transition := none },
         arrowTransform := none, expandLabel := none, display := none }]
      [("7", true)]).2.2
    { commentId := some "7",
      content := some { scrollHeight := 250, classes := ["is-expanded"],
                        maxHeight := some "250px",
                        transition := some "max-height 0.25s ease" },
      arrowTransform := none, expandLabel := none, display := some "block" }
    (by decide) "7"
    { scrollHeight := 250, classes := ["is-expanded"], maxHeight := some "250px",
      transition := some "max-height 0.25s ease" }
    rfl (by decide) rfl

/-- C10 witness: on a page with the container, placeholder and both
buttons present and an empty list, the listener shows the placeholder. -/
theorem afterRequestEmptyStateSync_matches_count_witness :
    (afterRequestEmptyStateSync
        { containerPresent := true, notificationWrapperCount := 0,
          noNotificationsDisplay := some "none", markAllBtnDisabled := some false,
          deleteAllBtnDisabled := some false }).noNotificationsDisplay = some "block" :=
  ((afterRequestEmptyStateSync_matches_count
      { containerPresent := true, notificationWrapperCount := 0,
        noNotificationsDisplay := some "none", markAllBtnDisabled := some false,
        deleteAllBtnDisabled := some false } rfl rfl rfl rfl).1).mpr rfl
